import Mathlib

/-
Shallow embedding of the service collector (src/collector/service.go) of
carlossscastro/windows_exporter, together with theorems settling the
specification claims about it.

The collector has two backends:
- Backend A (WMI / declarative query), the `else` branch of
  serviceCollector.collect: one bulk Win32_Service query, then per-record
  row emission comparing lower-cased raw strings against fixed tables.
- Backend B (live service-manager API), the `if *wmiDisabled` branch:
  connect, list services, then per service open a handle, read its
  configuration and current status, and emit rows from numeric codes mapped
  through the api value tables.

Metric gauge values produced by this collector are only ever 0.0 or 1.0,
so they are embedded as Nat (0 or 1).  Go strings are embedded as Lean
String, and strings.ToLower is modeled character-wise via Char.toLower
(the service names and table labels involved are ASCII).  Go map iteration
order is unspecified; the api value tables are embedded as association
lists in the literal order of the source, and no theorem below depends on
that order.
-/

/-- Embedding of strings.ToLower as used at every label position in
serviceCollector.collect. -/
def toLowerStr (s : String) : String := ⟨s.data.map Char.toLower⟩

/-- allStates (service.go lines 105-114). -/
def allStates : List String :=
  ["stopped", "start pending", "stop pending", "running",
   "continue pending", "pause pending", "paused", "unknown"]

/-- apiStateValues (service.go lines 115-123): windows constant -> canonical
label.  Numeric keys are the values of the windows SERVICE_* state
constants: CONTINUE_PENDING=5, PAUSE_PENDING=6, PAUSED=7, RUNNING=4,
START_PENDING=2, STOP_PENDING=3, STOPPED=1. -/
def apiStateValues : List (Nat × String) :=
  [(5, "continue pending"), (6, "pause pending"), (7, "paused"),
   (4, "running"), (2, "start pending"), (3, "stop pending"), (1, "stopped")]

/-- allStartModes (service.go lines 124-130). -/
def allStartModes : List String :=
  ["boot", "system", "auto", "manual", "disabled"]

/-- apiStartModeValues (service.go lines 131-137): windows start-type
constant -> canonical label.  AUTO_START=2, BOOT_START=0, DEMAND_START=3,
DISABLED=4, SYSTEM_START=1. -/
def apiStartModeValues : List (Nat × String) :=
  [(2, "auto"), (0, "boot"), (3, "manual"), (4, "disabled"), (1, "system")]

/-- allStatuses (service.go lines 138-151). -/
def allStatuses : List String :=
  ["ok", "error", "degraded", "unknown", "pred fail", "starting",
   "stopping", "service", "stressed", "nonrecover", "no contact", "lost comm"]

/-- Go map indexing m[k] on the api value tables: the mapped value when the
key is present, and the zero value "" otherwise. -/
def lookupDefault : List (Nat × String) → Nat → String
  | [], _ => ""
  | p :: t, k => if p.1 == k then p.2 else lookupDefault t k

/-- One emitted metric row.  The four constructors are the four descriptors
(Information, State, StartMode, Status); fields follow
prometheus.MustNewConstMetric: gauge value first, then the ordered label
values. -/
inductive MetricRow where
  | info (value : Nat) (name displayName processId runAs : String)
  | state (value : Nat) (name label : String)
  | startMode (value : Nat) (name label : String)
  | status (value : Nat) (name label : String)
  deriving DecidableEq, Repr

/-- The gauge value of a row. -/
def rowValue : MetricRow → Nat
  | .info v _ _ _ _ => v
  | .state v _ _ => v
  | .startMode v _ _ => v
  | .status v _ _ => v

/-- The name label of a row (first label value in every kind). -/
def rowName : MetricRow → String
  | .info _ n _ _ _ => n
  | .state _ n _ => n
  | .startMode _ n _ => n
  | .status _ n _ => n

def isInfoRow : MetricRow → Bool
  | .info _ _ _ _ _ => true
  | _ => false

def isStateRow : MetricRow → Bool
  | .state _ _ _ => true
  | _ => false

def isStartModeRow : MetricRow → Bool
  | .startMode _ _ _ => true
  | _ => false

def isStatusRow : MetricRow → Bool
  | .status _ _ _ => true
  | _ => false

def infoRows (rows : List MetricRow) : List MetricRow := rows.filter isInfoRow

def stateRows (rows : List MetricRow) : List MetricRow := rows.filter isStateRow

def startModeRows (rows : List MetricRow) : List MetricRow :=
  rows.filter isStartModeRow

def statusRows (rows : List MetricRow) : List MetricRow :=
  rows.filter isStatusRow

/-- The Win32_Service struct (service.go lines 94-102).  ProcessId
(uint32) is embedded as Nat; StartName (*string) as Option String. -/
structure Win32_Service where
  DisplayName : String
  Name : String
  ProcessId : Nat
  State : String
  Status : String
  StartMode : String
  StartName : Option String
  deriving DecidableEq, Repr

/-- The part of mgr.Config read by the collector (DisplayName,
ServiceStartName, StartType). -/
structure MgrConfig where
  DisplayName : String
  ServiceStartName : String
  StartType : Nat
  deriving DecidableEq, Repr

/-- The part of the svc status returned by serviceHandle.Query that the
collector reads (State, ProcessId). -/
structure SvcStatus where
  State : Nat
  ProcessId : Nat
  deriving DecidableEq, Repr

/-- Outcome of the three fallible per-service operations of Backend B
(OpenService, Config, Query) for one service name. -/
inductive PerService where
  | openErr
  | configErr
  | queryErr (config : MgrConfig)
  | ok (config : MgrConfig) (status : SvcStatus)
  deriving DecidableEq, Repr

def perServiceFailed : PerService → Bool
  | .ok _ _ => false
  | _ => true

/-- Rows emitted for one successfully queried service by Backend B
(service.go lines 190-240): one info row, one state row per entry of
apiStateValues, one start_mode row per entry of apiStartModeValues, and one
status row per entry of allStatuses, the status rows always 0. -/
def apiServiceRows (service : String) (config : MgrConfig)
    (status : SvcStatus) : List MetricRow :=
  [MetricRow.info 1 (toLowerStr service) config.DisplayName
    (toString status.ProcessId) config.ServiceStartName]
  ++ (apiStateValues.map Prod.snd).map (fun state =>
      MetricRow.state
        (if state == lookupDefault apiStateValues status.State then 1 else 0)
        (toLowerStr service) state)
  ++ (apiStartModeValues.map Prod.snd).map (fun startMode =>
      MetricRow.startMode
        (if startMode == lookupDefault apiStartModeValues config.StartType
         then 1 else 0)
        (toLowerStr service) startMode)
  ++ allStatuses.map (fun s => MetricRow.status 0 (toLowerStr service) s)

/-- Rows emitted by one iteration of the Backend B service loop
(service.go lines 169-241): nothing on any of the three per-service
failures, the full row set on success. -/
def perServiceRows (service : String) : PerService → List MetricRow
  | .openErr => []
  | .configErr => []
  | .queryErr _ => []
  | .ok config status => apiServiceRows service config status

/-- Resource acquisition and release events of Backend B. -/
inductive ResourceEvent where
  | mgrConnect
  | mgrDisconnect
  | openHandle (service : String)
  | closeHandle (service : String)
  deriving DecidableEq, Repr

/-- Handle events of one iteration of the Backend B service loop, read off
the source: on OpenService failure no handle exists; on Config or Query
failure the handle is closed before the continue (lines 179 and 186); on
the success path (lines 190-240) the source emits the rows and reaches the
end of the loop body without any serviceHandle.Close call. -/
def perServiceEvents (service : String) : PerService → List ResourceEvent
  | .openErr => []
  | .configErr => [.openHandle service, .closeHandle service]
  | .queryErr _ => [.openHandle service, .closeHandle service]
  | .ok _ _ => [.openHandle service]

/-- Outcome of the environment for one Backend B pass: the connect step,
the ListServices step, and the per-service operation outcomes. -/
inductive MgrResult where
  | connectErr
  | listErr
  | ok (services : List (String × PerService))

/-- Outcome of the environment for one Backend A pass: the bulk WMI query
either fails or returns the record list. -/
inductive WmiResult where
  | queryErr
  | ok (services : List Win32_Service)

/-- Result of one collect pass: the rows sent to the channel, and whether
a non-nil error was returned. -/
structure CollectResult where
  rows : List MetricRow
  err : Bool
  deriving DecidableEq, Repr

/-- Backend B branch of serviceCollector.collect (service.go lines
155-241): connect and ListServices failures abort the pass with an error
before any emission; otherwise every listed service is processed in order
and the pass returns a nil error. -/
def collectApi : MgrResult → CollectResult
  | .connectErr => ⟨[], true⟩
  | .listErr => ⟨[], true⟩
  | .ok services =>
    ⟨(services.map (fun p => perServiceRows p.1 p.2)).flatten, false⟩

/-- Resource events of a Backend B pass.  The manager connection is
released by defer svcmgrConnection.Disconnect() (line 160) on every exit
path after a successful connect. -/
def collectApiEvents : MgrResult → List ResourceEvent
  | .connectErr => []
  | .listErr => [.mgrConnect, .mgrDisconnect]
  | .ok services =>
    .mgrConnect ::
      ((services.map (fun p => perServiceEvents p.1 p.2)).flatten
        ++ [.mgrDisconnect])

/-- Rows emitted for one Win32_Service record by Backend A (service.go
lines 249-307): one info row, then one row per entry of allStates,
allStartModes and allStatuses, each 1 exactly when the label equals the
lower-cased raw string of the record. -/
def wmiServiceRows (service : Win32_Service) : List MetricRow :=
  [MetricRow.info 1 (toLowerStr service.Name) service.DisplayName
    (toString service.ProcessId) (service.StartName.getD "")]
  ++ allStates.map (fun state =>
      MetricRow.state (if state == toLowerStr service.State then 1 else 0)
        (toLowerStr service.Name) state)
  ++ allStartModes.map (fun startMode =>
      MetricRow.startMode
        (if startMode == toLowerStr service.StartMode then 1 else 0)
        (toLowerStr service.Name) startMode)
  ++ allStatuses.map (fun s =>
      MetricRow.status (if s == toLowerStr service.Status then 1 else 0)
        (toLowerStr service.Name) s)

/-- Backend A branch of serviceCollector.collect (service.go lines
243-308): a wmi.Query failure aborts the pass with an error and no rows;
otherwise every returned record is expanded into rows and the pass returns
a nil error. -/
def collectWmi : WmiResult → CollectResult
  | .queryErr => ⟨[], true⟩
  | .ok dst => ⟨(dst.map wmiServiceRows).flatten, false⟩

/-- serviceCollector.collect (service.go line 154): the branch on
*wmiDisabled selects Backend B when true and Backend A when false. -/
def collect (wmiDisabled : Bool) (api : MgrResult) (wmi : WmiResult) :
    CollectResult :=
  if wmiDisabled then collectApi api else collectWmi wmi

/-- Concrete example record used to instantiate theorems. -/
def exampleWmiService : Win32_Service :=
  ⟨"Windows Remote Management", "WinRM", 88, "Running", "OK", "Auto",
   some "LocalSystem"⟩

/-- Concrete example configuration used to instantiate theorems. -/
def exampleConfig : MgrConfig := ⟨"Windows Remote Management", "LocalSystem", 2⟩

/-- Concrete example live status (state 4 = running) used to instantiate
theorems. -/
def exampleStatus : SvcStatus := ⟨4, 88⟩

/-- Example service record with every enumerated raw value outside its
canonical table. -/
def unmappedWmiService : Win32_Service :=
  ⟨"Demo", "demo", 0, "Mystery", "Strange", "Weird", none⟩

/-- Example live configuration with a start type outside
apiStartModeValues. -/
def unmappedConfig : MgrConfig := ⟨"Demo", "LocalSystem", 9⟩

/-- Example live status with a state code outside apiStateValues. -/
def unmappedStatus : SvcStatus := ⟨99, 0⟩

/-- Example Backend B pass outcome: one service whose handle cannot be
opened, one fully successful service. -/
def exampleServices : List (String × PerService) :=
  [("Broken", .openErr), ("WinRM", .ok exampleConfig exampleStatus)]

lemma countP_rowValue (rows : List MetricRow) (n : Nat) :
    rows.countP (fun r => rowValue r == n)
      = (rows.map rowValue).countP (fun v => v == n) := by
  rw [List.countP_map]
  rfl

lemma countP_one_indicator_not_mem (l : List String) (k : String) (h : k ∉ l) :
    (l.map (fun x => if x == k then (1:Nat) else 0)).countP
      (fun v => v == 1) = 0 := by
  induction l with
  | nil => rfl
  | cons a t ih =>
    have ha : (a == k) = false := by
      refine beq_eq_false_iff_ne.mpr ?_
      intro e
      exact h (by rw [← e]; exact List.mem_cons_self a t)
    have ht : k ∉ t := fun hk => h (List.mem_cons_of_mem a hk)
    rw [List.map_cons, List.countP_cons, ih ht, ha]
    simp

lemma countP_zero_indicator_not_mem (l : List String) (k : String) (h : k ∉ l) :
    (l.map (fun x => if x == k then (1:Nat) else 0)).countP
      (fun v => v == 0) = l.length := by
  induction l with
  | nil => rfl
  | cons a t ih =>
    have ha : (a == k) = false := by
      refine beq_eq_false_iff_ne.mpr ?_
      intro e
      exact h (by rw [← e]; exact List.mem_cons_self a t)
    have ht : k ∉ t := fun hk => h (List.mem_cons_of_mem a hk)
    rw [List.map_cons, List.countP_cons, ih ht, ha]
    simp

lemma countP_one_indicator_mem (l : List String) (k : String)
    (hnd : l.Nodup) (h : k ∈ l) :
    (l.map (fun x => if x == k then (1:Nat) else 0)).countP
      (fun v => v == 1) = 1 := by
  induction l with
  | nil => cases h
  | cons a t ih =>
    rcases List.mem_cons.mp h with rfl | hk
    · have hat : k ∉ t := (List.nodup_cons.mp hnd).1
      rw [List.map_cons, List.countP_cons, countP_one_indicator_not_mem t k hat]
      simp
    · have ha : (a == k) = false := by
        refine beq_eq_false_iff_ne.mpr ?_
        intro e
        exact (List.nodup_cons.mp hnd).1 (e ▸ hk)
      rw [List.map_cons, List.countP_cons, ih (List.nodup_cons.mp hnd).2 hk, ha]
      simp

lemma countP_zero_indicator_mem (l : List String) (k : String)
    (hnd : l.Nodup) (h : k ∈ l) :
    (l.map (fun x => if x == k then (1:Nat) else 0)).countP
      (fun v => v == 0) = l.length - 1 := by
  induction l with
  | nil => cases h
  | cons a t ih =>
    rcases List.mem_cons.mp h with rfl | hk
    · have hat : k ∉ t := (List.nodup_cons.mp hnd).1
      rw [List.map_cons, List.countP_cons, countP_zero_indicator_not_mem t k hat]
      simp
    · have ha : (a == k) = false := by
        refine beq_eq_false_iff_ne.mpr ?_
        intro e
        exact (List.nodup_cons.mp hnd).1 (e ▸ hk)
      have hpos : 0 < t.length := List.length_pos.mpr (List.ne_nil_of_mem hk)
      rw [List.map_cons, List.countP_cons, ih (List.nodup_cons.mp hnd).2 hk, ha]
      simp only [List.length_cons]
      have hif : ((if (false = true) then (1:Nat) else 0) == 0) = true := rfl
      rw [hif]
      simp only [if_true]
      omega

lemma lookupDefault_not_mem (m : List (Nat × String)) (k : Nat)
    (h : k ∉ m.map Prod.fst) : lookupDefault m k = "" := by
  induction m with
  | nil => rfl
  | cons p t ih =>
    have hp : (p.1 == k) = false := by
      refine beq_eq_false_iff_ne.mpr ?_
      intro e
      exact h (by rw [← e]; exact List.mem_cons_self p.1 (t.map Prod.fst))
    have ht : k ∉ t.map Prod.fst := fun hk => h (List.mem_cons_of_mem _ hk)
    simp [lookupDefault, hp, ih ht]

lemma lookupDefault_mem (m : List (Nat × String)) (k : Nat)
    (h : k ∈ m.map Prod.fst) : lookupDefault m k ∈ m.map Prod.snd := by
  induction m with
  | nil => simp at h
  | cons p t ih =>
    by_cases hp : (p.1 == k) = true
    · simp [lookupDefault, hp]
    · rw [List.map_cons] at h
      have hk : k ∈ t.map Prod.fst := by
        rcases List.mem_cons.mp h with h1 | h1
        · exact absurd (beq_iff_eq.mpr h1.symm) hp
        · exact h1
      simp only [lookupDefault, hp, if_false, List.map_cons]
      exact List.mem_cons_of_mem _ (ih hk)

/-- C1, counterexample to the claim as stated: a Backend B service with the
recognized state code 4 (running) gets a one-hot state row set of only 7
rows, so the rows with value 0 number 6 and not the claimed 7. -/
theorem C1_counterexample :
    (4 : Nat) ∈ apiStateValues.map Prod.fst ∧
    (stateRows (apiServiceRows "WinRM" exampleConfig exampleStatus)).countP
        (fun r => rowValue r == 1) = 1 ∧
    (stateRows (apiServiceRows "WinRM" exampleConfig exampleStatus)).countP
        (fun r => rowValue r == 0) = 6 ∧
    ¬ (stateRows (apiServiceRows "WinRM" exampleConfig exampleStatus)).countP
        (fun r => rowValue r == 0) = 7 := by
  decide

/-- C1 (amended): for every service with a recognized state the emitted
state row set is one-hot, with exactly one row of value 1; Backend A emits
8 state rows so the remaining 7 are 0, while Backend B emits only 7 state
rows (its api table has no unknown entry) so the remaining 6 are 0. -/
theorem C1_one_hot_state_rows :
    (∀ s : Win32_Service, toLowerStr s.State ∈ allStates →
      (stateRows (wmiServiceRows s)).length = 8 ∧
      (stateRows (wmiServiceRows s)).countP (fun r => rowValue r == 1) = 1 ∧
      (stateRows (wmiServiceRows s)).countP (fun r => rowValue r == 0) = 7) ∧
    (∀ (service : String) (config : MgrConfig) (st : SvcStatus),
      st.State ∈ apiStateValues.map Prod.fst →
      (stateRows (apiServiceRows service config st)).length = 7 ∧
      (stateRows (apiServiceRows service config st)).countP
        (fun r => rowValue r == 1) = 1 ∧
      (stateRows (apiServiceRows service config st)).countP
        (fun r => rowValue r == 0) = 6) := by
  constructor
  · intro s h
    have hmap : (stateRows (wmiServiceRows s)).map rowValue
        = allStates.map (fun x => if x == toLowerStr s.State then 1 else 0) :=
      rfl
    refine ⟨rfl, ?_, ?_⟩
    · rw [countP_rowValue, hmap]
      exact countP_one_indicator_mem allStates _ (by decide) h
    · rw [countP_rowValue, hmap,
        countP_zero_indicator_mem allStates _ (by decide) h]
      rfl
  · intro service config st h
    have hk : lookupDefault apiStateValues st.State
        ∈ apiStateValues.map Prod.snd := lookupDefault_mem _ _ h
    have hmap : (stateRows (apiServiceRows service config st)).map rowValue
        = (apiStateValues.map Prod.snd).map
            (fun x => if x == lookupDefault apiStateValues st.State
             then 1 else 0) := rfl
    refine ⟨rfl, ?_, ?_⟩
    · rw [countP_rowValue, hmap]
      exact countP_one_indicator_mem _ _ (by decide) hk
    · rw [countP_rowValue, hmap,
        countP_zero_indicator_mem _ _ (by decide) hk]
      rfl

/-- C1 witness: the amended one-hot statement instantiated at a concrete
Backend A record (raw state Running) and a concrete Backend B service
(state code 4). -/
theorem C1_one_hot_state_rows_witness :
    ((stateRows (wmiServiceRows exampleWmiService)).length = 8 ∧
     (stateRows (wmiServiceRows exampleWmiService)).countP
        (fun r => rowValue r == 1) = 1 ∧
     (stateRows (wmiServiceRows exampleWmiService)).countP
        (fun r => rowValue r == 0) = 7) ∧
    ((stateRows (apiServiceRows "WinRM" exampleConfig exampleStatus)).length = 7 ∧
     (stateRows (apiServiceRows "WinRM" exampleConfig exampleStatus)).countP
        (fun r => rowValue r == 1) = 1 ∧
     (stateRows (apiServiceRows "WinRM" exampleConfig exampleStatus)).countP
        (fun r => rowValue r == 0) = 6) :=
  ⟨C1_one_hot_state_rows.1 exampleWmiService (by decide),
   C1_one_hot_state_rows.2 "WinRM" exampleConfig exampleStatus (by decide)⟩

/-- C2, counterexample to the claim as stated: a Backend B service yields
25 rows, not 26, because only 7 state rows are emitted. -/
theorem C2_counterexample :
    (apiServiceRows "WinRM" exampleConfig exampleStatus).length = 25 ∧
    ¬ (apiServiceRows "WinRM" exampleConfig exampleStatus).length = 26 := by
  decide

/-- C2 (amended): every Backend A service yields exactly 26 rows
(1 info + 8 state + 5 start_mode + 12 status), while every Backend B
service yields exactly 25 rows (1 info + 7 state + 5 start_mode +
12 status). -/
theorem C2_row_counts :
    ∀ (s : Win32_Service) (service : String) (config : MgrConfig)
      (st : SvcStatus),
      (wmiServiceRows s).length = 26 ∧
      (infoRows (wmiServiceRows s)).length = 1 ∧
      (stateRows (wmiServiceRows s)).length = 8 ∧
      (startModeRows (wmiServiceRows s)).length = 5 ∧
      (statusRows (wmiServiceRows s)).length = 12 ∧
      (apiServiceRows service config st).length = 25 ∧
      (infoRows (apiServiceRows service config st)).length = 1 ∧
      (stateRows (apiServiceRows service config st)).length = 7 ∧
      (startModeRows (apiServiceRows service config st)).length = 5 ∧
      (statusRows (apiServiceRows service config st)).length = 12 :=
  fun _ _ _ _ => ⟨rfl, rfl, rfl, rfl, rfl, rfl, rfl, rfl, rfl, rfl⟩

/-- C3, counterexample to the claim as stated: a Backend A record with the
unrecognized raw state Mystery emits the unknown state row with value 0,
not 1; no state row carries value 1 at all, and the pass still succeeds. -/
theorem C3_counterexample :
    MetricRow.state 0 "demo" "unknown"
      ∈ wmiServiceRows ⟨"Demo", "demo", 0, "Mystery", "OK", "Auto", none⟩ ∧
    MetricRow.state 1 "demo" "unknown"
      ∉ wmiServiceRows ⟨"Demo", "demo", 0, "Mystery", "OK", "Auto", none⟩ ∧
    (stateRows (wmiServiceRows
        ⟨"Demo", "demo", 0, "Mystery", "OK", "Auto", none⟩)).countP
      (fun r => rowValue r == 1) = 0 ∧
    (collectWmi (.ok [⟨"Demo", "demo", 0, "Mystery", "OK", "Auto", none⟩])).err
      = false := by
  decide

/-- C3 (amended): a raw enumeration value with no canonical mapping never
fails the pass; the full row set of that enumeration is still emitted, with
every row value 0 (no row, the unknown-labeled one included, is set to 1). -/
theorem C3_unmapped_all_zero :
    (∀ s : Win32_Service, toLowerStr s.State ∉ allStates →
      (collectWmi (.ok [s])).err = false ∧
      (stateRows (wmiServiceRows s)).length = 8 ∧
      (stateRows (wmiServiceRows s)).countP (fun r => rowValue r == 0) = 8 ∧
      (stateRows (wmiServiceRows s)).countP (fun r => rowValue r == 1) = 0) ∧
    (∀ s : Win32_Service, toLowerStr s.StartMode ∉ allStartModes →
      (startModeRows (wmiServiceRows s)).length = 5 ∧
      (startModeRows (wmiServiceRows s)).countP (fun r => rowValue r == 0) = 5) ∧
    (∀ s : Win32_Service, toLowerStr s.Status ∉ allStatuses →
      (statusRows (wmiServiceRows s)).length = 12 ∧
      (statusRows (wmiServiceRows s)).countP (fun r => rowValue r == 0) = 12) ∧
    (∀ (service : String) (config : MgrConfig) (st : SvcStatus),
      st.State ∉ apiStateValues.map Prod.fst →
      (collectApi (.ok [(service, .ok config st)])).err = false ∧
      (stateRows (apiServiceRows service config st)).length = 7 ∧
      (stateRows (apiServiceRows service config st)).countP
        (fun r => rowValue r == 0) = 7 ∧
      (stateRows (apiServiceRows service config st)).countP
        (fun r => rowValue r == 1) = 0) ∧
    (∀ (service : String) (config : MgrConfig) (st : SvcStatus),
      config.StartType ∉ apiStartModeValues.map Prod.fst →
      (startModeRows (apiServiceRows service config st)).length = 5 ∧
      (startModeRows (apiServiceRows service config st)).countP
        (fun r => rowValue r == 0) = 5) := by
  refine ⟨?_, ?_, ?_, ?_, ?_⟩
  · intro s h
    have hmap : (stateRows (wmiServiceRows s)).map rowValue
        = allStates.map (fun x => if x == toLowerStr s.State then 1 else 0) :=
      rfl
    refine ⟨rfl, rfl, ?_, ?_⟩
    · rw [countP_rowValue, hmap, countP_zero_indicator_not_mem _ _ h]
      rfl
    · rw [countP_rowValue, hmap, countP_one_indicator_not_mem _ _ h]
  · intro s h
    have hmap : (startModeRows (wmiServiceRows s)).map rowValue
        = allStartModes.map
            (fun x => if x == toLowerStr s.StartMode then 1 else 0) := rfl
    refine ⟨rfl, ?_⟩
    rw [countP_rowValue, hmap, countP_zero_indicator_not_mem _ _ h]
    rfl
  · intro s h
    have hmap : (statusRows (wmiServiceRows s)).map rowValue
        = allStatuses.map
            (fun x => if x == toLowerStr s.Status then 1 else 0) := rfl
    refine ⟨rfl, ?_⟩
    rw [countP_rowValue, hmap, countP_zero_indicator_not_mem _ _ h]
    rfl
  · intro service config st h
    have hmap : (stateRows (apiServiceRows service config st)).map rowValue
        = (apiStateValues.map Prod.snd).map
            (fun x => if x == lookupDefault apiStateValues st.State
             then 1 else 0) := rfl
    refine ⟨rfl, rfl, ?_, ?_⟩
    · rw [countP_rowValue, hmap, lookupDefault_not_mem _ _ h,
        countP_zero_indicator_not_mem _ _ (by decide)]
      rfl
    · rw [countP_rowValue, hmap, lookupDefault_not_mem _ _ h,
        countP_one_indicator_not_mem _ _ (by decide)]
  · intro service config st h
    have hmap : (startModeRows (apiServiceRows service config st)).map rowValue
        = (apiStartModeValues.map Prod.snd).map
            (fun x => if x == lookupDefault apiStartModeValues config.StartType
             then 1 else 0) := rfl
    refine ⟨rfl, ?_⟩
    rw [countP_rowValue, hmap, lookupDefault_not_mem _ _ h,
      countP_zero_indicator_not_mem _ _ (by decide)]
    rfl

/-- C3 witness: the amended statement instantiated at a record whose state,
start mode and status are all unmapped, and at a live service whose state
code 99 and start type 9 are outside the api tables. -/
theorem C3_unmapped_all_zero_witness :
    ((collectWmi (.ok [unmappedWmiService])).err = false ∧
     (stateRows (wmiServiceRows unmappedWmiService)).length = 8 ∧
     (stateRows (wmiServiceRows unmappedWmiService)).countP
        (fun r => rowValue r == 0) = 8 ∧
     (stateRows (wmiServiceRows unmappedWmiService)).countP
        (fun r => rowValue r == 1) = 0) ∧
    ((startModeRows (wmiServiceRows unmappedWmiService)).length = 5 ∧
     (startModeRows (wmiServiceRows unmappedWmiService)).countP
        (fun r => rowValue r == 0) = 5) ∧
    ((statusRows (wmiServiceRows unmappedWmiService)).length = 12 ∧
     (statusRows (wmiServiceRows unmappedWmiService)).countP
        (fun r => rowValue r == 0) = 12) ∧
    ((collectApi (.ok [("demo", .ok unmappedConfig unmappedStatus)])).err
        = false ∧
     (stateRows (apiServiceRows "demo" unmappedConfig unmappedStatus)).length
        = 7 ∧
     (stateRows (apiServiceRows "demo" unmappedConfig unmappedStatus)).countP
        (fun r => rowValue r == 0) = 7 ∧
     (stateRows (apiServiceRows "demo" unmappedConfig unmappedStatus)).countP
        (fun r => rowValue r == 1) = 0) ∧
    ((startModeRows (apiServiceRows "demo" unmappedConfig unmappedStatus)).length
        = 5 ∧
     (startModeRows (apiServiceRows "demo" unmappedConfig unmappedStatus)).countP
        (fun r => rowValue r == 0) = 5) :=
  ⟨C3_unmapped_all_zero.1 unmappedWmiService (by decide),
   C3_unmapped_all_zero.2.1 unmappedWmiService (by decide),
   C3_unmapped_all_zero.2.2.1 unmappedWmiService (by decide),
   C3_unmapped_all_zero.2.2.2.1 "demo" unmappedConfig unmappedStatus (by decide),
   C3_unmapped_all_zero.2.2.2.2 "demo" unmappedConfig unmappedStatus (by decide)⟩

/-- C4: in Backend B a per-service failure (open, config or query) skips
exactly that service: the pass returns a nil error, the failed service
contributes no rows, the emitted rows are the concatenation of the
per-service row lists in list order, and every successfully queried service
contributes a nonempty row list. -/
theorem C4_per_service_skip (services : List (String × PerService))
    (p : String × PerService) (_hmem : p ∈ services)
    (hfail : perServiceFailed p.2 = true) :
    (collectApi (.ok services)).err = false ∧
    perServiceRows p.1 p.2 = [] ∧
    (collectApi (.ok services)).rows
      = (services.map (fun q => perServiceRows q.1 q.2)).flatten ∧
    (∀ q ∈ services, perServiceFailed q.2 = false →
      perServiceRows q.1 q.2 ≠ []) := by
  refine ⟨rfl, ?_, rfl, ?_⟩
  · cases hq : p.2 with
    | openErr => rfl
    | configErr => rfl
    | queryErr c => rfl
    | ok c t => rw [hq] at hfail; simp [perServiceFailed] at hfail
  · intro q hq hqok
    cases hq2 : q.2 with
    | openErr => rw [hq2] at hqok; simp [perServiceFailed] at hqok
    | configErr => rw [hq2] at hqok; simp [perServiceFailed] at hqok
    | queryErr c => rw [hq2] at hqok; simp [perServiceFailed] at hqok
    | ok c t => simp [perServiceRows, apiServiceRows]

/-- C4 witness: a pass over two listed services, the first failing to open
and the second fully successful. -/
theorem C4_per_service_skip_witness :
    (collectApi (.ok exampleServices)).err = false ∧
    perServiceRows "Broken" PerService.openErr = [] ∧
    (collectApi (.ok exampleServices)).rows
      = (exampleServices.map (fun q => perServiceRows q.1 q.2)).flatten ∧
    (∀ q ∈ exampleServices, perServiceFailed q.2 = false →
      perServiceRows q.1 q.2 ≠ []) :=
  C4_per_service_skip exampleServices ("Broken", PerService.openErr)
    (by decide) rfl

/-- C5: a Backend A bulk query failure aborts the pass with zero rows
emitted and a non-nil error, whichever environment Backend B would have
seen. -/
theorem C5_query_failure_aborts :
    collectWmi .queryErr = ⟨[], true⟩ ∧
    (collectWmi .queryErr).rows.length = 0 ∧
    ∀ api : MgrResult, collect false api .queryErr = ⟨[], true⟩ :=
  ⟨rfl, rfl, fun _ => rfl⟩

/-- C6: for every service emitted by Backend B the 12 status rows are
exactly one row per canonical status label, each with value 0,
unconditionally. -/
theorem C6_api_status_rows_zero :
    ∀ (service : String) (config : MgrConfig) (st : SvcStatus),
      statusRows (apiServiceRows service config st)
        = allStatuses.map (fun s => MetricRow.status 0 (toLowerStr service) s) ∧
      (statusRows (apiServiceRows service config st)).length = 12 ∧
      (statusRows (apiServiceRows service config st)).countP
        (fun r => rowValue r == 0) = 12 :=
  fun _ _ _ => ⟨rfl, rfl, rfl⟩

/-- C7: the claim fails on the code.  On the success path of the Backend B
loop the opened service handle is never closed (the source closes it only
on the Config and Query error paths), so a fully successful service leaves
exactly one open event and no close event, even though the manager
connection is still disconnected by the deferred call. -/
theorem C7_handle_leak :
    (collectApiEvents (.ok [("winrm", .ok exampleConfig exampleStatus)])).countP
        (fun e => e == ResourceEvent.openHandle "winrm") = 1 ∧
    (collectApiEvents (.ok [("winrm", .ok exampleConfig exampleStatus)])).countP
        (fun e => e == ResourceEvent.closeHandle "winrm") = 0 ∧
    ResourceEvent.mgrDisconnect
      ∈ collectApiEvents (.ok [("winrm", .ok exampleConfig exampleStatus)]) := by
  decide

/-- C8: in every row of all four kinds, from either backend, the name label
is the lower-cased raw service name; in particular the raw name WinRM
yields winrm in every row. -/
theorem C8_lowercase_name_labels :
    (∀ s : Win32_Service,
      (wmiServiceRows s).all (fun r => rowName r == toLowerStr s.Name) = true) ∧
    (∀ (service : String) (config : MgrConfig) (st : SvcStatus),
      (apiServiceRows service config st).all
        (fun r => rowName r == toLowerStr service) = true) ∧
    (wmiServiceRows exampleWmiService).all (fun r => rowName r == "winrm")
      = true := by
  refine ⟨?_, ?_, by decide⟩
  · intro s
    simp [wmiServiceRows, allStates, allStartModes, allStatuses, rowName]
  · intro service config st
    simp [apiServiceRows, apiStateValues, apiStartModeValues, allStatuses,
      rowName]

/-- C9: backend selection is the pure branch on the wmiDisabled flag: true
runs Backend B and ignores the Backend A environment, false runs Backend A
and ignores the Backend B environment, so exactly one backend runs per
pass. -/
theorem C9_backend_selection :
    ∀ (api api' : MgrResult) (wmi wmi' : WmiResult),
      collect true api wmi = collectApi api ∧
      collect false api wmi = collectWmi wmi ∧
      collect true api wmi = collect true api wmi' ∧
      collect false api wmi = collect false api' wmi :=
  fun _ _ _ _ => ⟨rfl, rfl, rfl, rfl⟩

/-- C10: Backend A matching is case-insensitive through lower-casing: when
a raw state, start mode or status string lower-cases to a canonical label,
the row with that label is emitted with value 1. -/
theorem C10_case_insensitive_match :
    (∀ (s : Win32_Service) (c : String), c ∈ allStates →
      toLowerStr s.State = c →
      MetricRow.state 1 (toLowerStr s.Name) c ∈ wmiServiceRows s) ∧
    (∀ (s : Win32_Service) (c : String), c ∈ allStartModes →
      toLowerStr s.StartMode = c →
      MetricRow.startMode 1 (toLowerStr s.Name) c ∈ wmiServiceRows s) ∧
    (∀ (s : Win32_Service) (c : String), c ∈ allStatuses →
      toLowerStr s.Status = c →
      MetricRow.status 1 (toLowerStr s.Name) c ∈ wmiServiceRows s) := by
  refine ⟨?_, ?_, ?_⟩
  · intro s c hc he
    subst he
    simp only [wmiServiceRows, List.mem_append, List.mem_cons, List.mem_map]
    refine Or.inl (Or.inl (Or.inr ?_))
    exact ⟨toLowerStr s.State, hc, by simp⟩
  · intro s c hc he
    subst he
    simp only [wmiServiceRows, List.mem_append, List.mem_cons, List.mem_map]
    refine Or.inl (Or.inr ?_)
    exact ⟨toLowerStr s.StartMode, hc, by simp⟩
  · intro s c hc he
    subst he
    simp only [wmiServiceRows, List.mem_append, List.mem_cons, List.mem_map]
    refine Or.inr ?_
    exact ⟨toLowerStr s.Status, hc, by simp⟩

/-- C10 witness: the raw strings Running, Auto and OK of the example record
differ from canonical labels only in case and still produce the value-1
rows. -/
theorem C10_case_insensitive_match_witness :
    MetricRow.state 1 (toLowerStr exampleWmiService.Name) "running"
      ∈ wmiServiceRows exampleWmiService ∧
    MetricRow.startMode 1 (toLowerStr exampleWmiService.Name) "auto"
      ∈ wmiServiceRows exampleWmiService ∧
    MetricRow.status 1 (toLowerStr exampleWmiService.Name) "ok"
      ∈ wmiServiceRows exampleWmiService :=
  ⟨C10_case_insensitive_match.1 exampleWmiService "running" (by decide)
      (by decide),
   C10_case_insensitive_match.2.1 exampleWmiService "auto" (by decide)
      (by decide),
   C10_case_insensitive_match.2.2 exampleWmiService "ok" (by decide)
      (by decide)⟩
